import Mathlib

/-!
Verification of the plant-doctor prediction pipeline (`app/inference.py`) and
translation layer (`app/translator.py`).

Modelling conventions of this shallow embedding:
* Confidence scores and pixel coordinates are modelled by rationals `ℚ`
  (the Python code uses floats; no claim here depends on rounding).
* The YOLO detection capability is opaque: `predict` receives the raw
  detections (class id, confidence, box) that `result.boxes` yields, and the
  model-provided id→name table as a function `Nat → String`.
* The PNG serialisation of the annotated image (`annotated_image.save(...,
  format='PNG')`) is opaque graphics work; its output byte string is a
  parameter `png : List Nat`.  The base64/data-URI wrapping that the code
  performs on those bytes *is* modelled (`base64Encode`, `dataURI`).
* The external translation capability (`GoogleTranslator(...).translate`) is
  an oracle `tr : String → String → String → Option String` taking the text,
  source and target language; `none` models a raised exception.
* Python `list.sort(key=lambda x: x.confidence, reverse=True)` is a stable
  descending sort; it is modelled by `List.insertionSort confGE`, which is
  sorted for `confGE`, a permutation, and stable — the same unique stable
  result Python produces.
* Fallible Python code is modelled by `Option`/`Except`; everything is a
  total computable function, so "never raises" claims become totality plus
  the stated equations.
-/

/-- One detection coming out of the YOLO result: bounding box `(x1,y1,x2,y2)`,
integer class id, confidence score. Mirrors the zipped
`(box_coords, class_ids, confidences)` of `inference.py`. -/
structure Detection where
  box : ℚ × ℚ × ℚ × ℚ
  class_id : Nat
  confidence : ℚ
deriving DecidableEq, Repr

/-- `PredictionItem` of `app/schemas.py`: a detection stripped of geometry. -/
structure PredictionItem where
  class_name : String
  confidence : ℚ
deriving DecidableEq, Repr

instance : Inhabited PredictionItem := ⟨⟨"", 0⟩⟩

/-- The dictionary returned by `ModelInference.predict`. -/
structure PredictOutput where
  disease : String
  confidence : ℚ
  all_predictions : List PredictionItem
  annotated_image : String
deriving DecidableEq, Repr

/-- The ordering used by `all_predictions.sort(key=lambda x: x.confidence,
reverse=True)`: `a` may come before `b` iff `a`'s confidence is ≥ `b`'s. -/
def confGE (a b : PredictionItem) : Prop := b.confidence ≤ a.confidence

instance : DecidableRel confGE :=
  fun a b => (inferInstance : Decidable (b.confidence ≤ a.confidence))

instance : IsTotal PredictionItem confGE :=
  ⟨fun a b => le_total b.confidence a.confidence⟩

instance : IsTrans PredictionItem confGE :=
  ⟨fun _ _ _ hab hbc => le_trans hbc hab⟩

/-- The character table of standard base64. -/
def b64Char (n : Nat) : Char :=
  "ABCDEFGHIJKLMNOPQRSTUVWXYZabcdefghijklmnopqrstuvwxyz0123456789+/".toList.getD n 'A'

/-- Standard base64 of a byte sequence, as `base64.b64encode` produces. -/
def base64Encode : List Nat → String
  | [] => ""
  | [a] =>
    String.mk [b64Char (a / 4), b64Char (a % 4 * 16), '=', '=']
  | [a, b] =>
    String.mk [b64Char (a / 4), b64Char (a % 4 * 16 + b / 16), b64Char (b % 16 * 4), '=']
  | a :: b :: c :: rest =>
    String.mk [b64Char (a / 4), b64Char (a % 4 * 16 + b / 16),
               b64Char (b % 16 * 4 + c / 64), b64Char (c % 64)] ++ base64Encode rest

/-- The data-URI wrapping `inference.py` line 251 performs on the PNG bytes:
the f-string prepending the text data colon image/png semicolon base64 comma
to the base64-encoded bytes. -/
def dataURI (png : List Nat) : String := "data:image/png;base64," ++ base64Encode png

/-- Building a `PredictionItem` from a detection, as the loop body of
`ModelInference.predict` does (`class_name = class_names[int(class_id)]`). -/
def detToItem (names : Nat → String) (d : Detection) : PredictionItem :=
  { class_name := names d.class_id, confidence := d.confidence }

/-- The sentinel item used when no boxes were detected. -/
def sentinelItem : PredictionItem := ⟨"No Disease Detected", 0⟩

/-- `ModelInference.predict` (inference.py lines 157–258), given the raw
detections, the id→name table and the opaque PNG serialisation of the
annotated image.  Non-empty case: items are built per detection, sorted
stably by descending confidence, and the primary diagnosis is the head of
the sorted list.  Empty case: the sentinel response. In both cases the PNG
bytes are base64-encoded and wrapped into a data URI. -/
def predict (dets : List Detection) (names : Nat → String) (png : List Nat) :
    PredictOutput :=
  if dets.isEmpty then
    { disease := "No Disease Detected", confidence := 0,
      all_predictions := [sentinelItem],
      annotated_image := dataURI png }
  else
    let sorted := List.insertionSort confGE (dets.map (detToItem names))
    { disease := sorted.headI.class_name,
      confidence := sorted.headI.confidence,
      all_predictions := sorted,
      annotated_image := dataURI png }

/-! ## Image annotator (label layout of `inference.py` lines 135–221) -/

/-- A loaded font resource.  Its only behaviour visible to the layout is text
measurement (`draw.textbbox`/`draw.textsize`); `none` models those calls
raising, which the code catches with a fallback estimate. -/
structure FontRes where
  measure : String → Option (ℚ × ℚ)

/-- The hardcoded candidate font paths of `inference.py` lines 139–143. -/
def font_paths : List String :=
  ["/System/Library/Fonts/Helvetica.ttc",
   "/usr/share/fonts/truetype/dejavu/DejaVuSans.ttf",
   "C:/Windows/Fonts/arial.ttf"]

/-- The probing loop (lines 144–150): first existing path whose
`ImageFont.truetype` succeeds wins; a `truetype` failure falls through to the
next candidate (`except: continue`). `ex` models `os.path.exists`, `tt`
models `ImageFont.truetype` (`none` = raised). -/
def findFont (ex : String → Bool) (tt : String → Option FontRes) :
    List String → Option FontRes
  | [] => none
  | p :: ps =>
    if ex p then
      match tt p with
      | some f => some f
      | none => findFont ex tt ps
    else findFont ex tt ps

/-- Full font resolution (lines 136–155): probe the candidate list, fall back
to `ImageFont.load_default()` (`ld`, with `none` modelling it raising, which
the outer `except` maps to `font = None`). -/
def resolveFont (ex : String → Bool) (tt : String → Option FontRes)
    (ld : Option FontRes) : Option FontRes :=
  match findFont ex tt font_paths with
  | some f => some f
  | none => ld

/-- Text measurement with fallback (lines 191–208): with a font, use its
measurement; if that raises, or without any font, estimate
`len(label) * 6` wide and `12` high. -/
def textDims (font : Option FontRes) (label : String) : ℚ × ℚ :=
  match font with
  | some f =>
    match f.measure label with
    | some wh => wh
    | none => ((label.length : ℚ) * 6, 12)
  | none => ((label.length : ℚ) * 6, 12)

/-- The label y-origin (line 211): `label_y = max(0, y1 - text_height - 5)`. -/
def labelY (y1 h : ℚ) : ℚ := max 0 (y1 - h - 5)

/-- Two-decimal rendering of a confidence, as used in the label f-string of
line 188, which formats the confidence with the .2f format spec (this
embedding rounds half up; the claims never inspect the digits). -/
def formatConf2 (c : ℚ) : String :=
  let n : Int := Int.fdiv (200 * c.num + c.den) (2 * c.den)
  let frac : Nat := (n % 100).toNat
  toString (n / 100) ++ "." ++ (if frac < 10 then "0" else "") ++ toString frac

/-- The label text of line 188: the class name, a colon and space, then the
confidence rendered with two decimals. -/
def labelFor (names : Nat → String) (d : Detection) : String :=
  names d.class_id ++ ": " ++ formatConf2 d.confidence

/-- Layout of one detection's label: `(text_width, text_height, label_y)`. -/
def placeLabel (font : Option FontRes) (names : Nat → String) (d : Detection) :
    ℚ × ℚ × ℚ :=
  let wh := textDims font (labelFor names d)
  (wh.1, wh.2, labelY d.box.2.1 wh.2)

/-- The layout of all labels drawn by the annotation loop (lines 179–221). -/
def labelPlacements (font : Option FontRes) (names : Nat → String)
    (dets : List Detection) : List (ℚ × ℚ × ℚ) :=
  dets.map (placeLabel font names)

/-! ## Translation service (`app/translator.py`)

`tr text source target` is the external `GoogleTranslator(source=...,
target=...).translate(text)` oracle; `none` models a raised exception.
Each translating function also returns the number of oracle calls issued,
so "no external call is made" is the count being `0`. -/

/-- A Python dict holding a prediction, with the two keys the code touches
possibly absent. -/
structure PredDict where
  class_name : Option String
  confidence : Option ℚ
deriving DecidableEq, Repr

/-- A value appearing in an `all_predictions` list: a Pydantic model
(`PredictionItem`, which has `.dict`), a plain dict, or anything else
(kept as its `str(...)` rendering). -/
inductive PredValue where
  | item (p : PredictionItem)
  | dict (d : PredDict)
  | other (s : String)
deriving DecidableEq, Repr

/-- The per-item conversion of `translate_disease_names` (translator.py
lines 86–96 and 101–109): Pydantic models via `.dict()`, dicts copied,
anything else replaced by `{"class_name": str(pred), "confidence": 0.0}`. -/
def toDict : PredValue → PredDict
  | .item p => ⟨some p.class_name, some p.confidence⟩
  | .dict d => d
  | .other s => ⟨some s, some 0⟩

/-- The `class_name` a value exposes, if any. -/
def PredValue.className : PredValue → Option String
  | .item p => some p.class_name
  | .dict d => d.class_name
  | .other _ => none

/-- The confidence a value exposes, if any. -/
def PredValue.confValue : PredValue → Option ℚ
  | .item p => some p.confidence
  | .dict d => d.confidence
  | .other _ => none

/-- The prediction-response dict flowing from `ModelInference.predict` into
the translator.  `disease`/`all_predictions` are `Option`s because the code
guards them with `if "disease" in ...` / `if "all_predictions" in ...`. -/
structure Response where
  disease : Option String
  confidence : ℚ
  all_predictions : Option (List PredValue)
  annotated_image : String
deriving DecidableEq, Repr

/-- `TranslationService.translate_text` (lines 51–72): identity with no
oracle call when `target_lang == "en" or target_lang == source_lang`;
otherwise one oracle call, returning the original text if it raises. -/
def translate_text (tr : String → String → String → Option String)
    (text target source : String) : String × Nat :=
  if target = "en" ∨ target = source then (text, 0)
  else
    match tr text source target with
    | some t => (t, 1)
    | none => (text, 1)

/-- The result `translate_text tr s "en" target` produces for a non-`"en"`
target: the translation when the oracle succeeds, the original string when
it raises. -/
def tfb (tr : String → String → String → Option String)
    (target s : String) : String :=
  match tr s "en" target with
  | some t => t
  | none => s

/-- One iteration of the translating loop of `translate_disease_names`
(lines 100–114): convert to a dict, translate its `class_name`
(`pred_dict.get("class_name", "")`), store the result back. -/
def translateItem (tr : String → String → String → Option String)
    (target : String) (p : PredValue) : PredDict × Nat :=
  let d := toDict p
  let r := translate_text tr (d.class_name.getD "") target "en"
  ({ d with class_name := some r.1 }, r.2)

/-- `TranslationService.translate_disease_names` (lines 74–116). -/
def translate_disease_names (tr : String → String → String → Option String)
    (preds : List PredValue) (target : String) : List PredValue × Nat :=
  if target = "en" then
    (preds.map (fun p => PredValue.dict (toDict p)), 0)
  else
    let l := preds.map (translateItem tr target)
    (l.map (fun x => PredValue.dict x.1), (l.map (fun x => x.2)).sum)

/-- `TranslationService.translate_prediction_response` (lines 118–150). -/
def translate_prediction_response (tr : String → String → String → Option String)
    (resp : Response) (target : String) : Response × Nat :=
  if target = "en" then (resp, 0)
  else
    let dis : Option String × Nat :=
      match resp.disease with
      | some d => let r := translate_text tr d target "en"; (some r.1, r.2)
      | none => (none, 0)
    let preds : Option (List PredValue) × Nat :=
      match resp.all_predictions with
      | some ps => let r := translate_disease_names tr ps target; (some r.1, r.2)
      | none => (none, 0)
    ({ resp with disease := dis.1, all_predictions := preds.1 }, dis.2 + preds.2)

/-- The response `main.py` hands to the translator: the dict produced by
`ModelInference.predict`, whose `all_predictions` are Pydantic
`PredictionItem`s. -/
def predictResponse (dets : List Detection) (names : Nat → String)
    (png : List Nat) : Response :=
  let o := predict dets names png
  { disease := some o.disease, confidence := o.confidence,
    all_predictions := some (o.all_predictions.map PredValue.item),
    annotated_image := o.annotated_image }

/-- The PredictionResult invariant of spec §3: the primary diagnosis mirrors
the first element of `all_predictions`. -/
def respInvariant (r : Response) : Prop :=
  ∃ p t, r.all_predictions = some (p :: t) ∧
    PredValue.className p = r.disease ∧
    PredValue.confValue p = some r.confidence

/-! ## Model adapter (`get_model`, inference.py lines 262–276)

`getModelOnce construct cache` runs one call of `get_model` against the
module-level `_model_instance` cache, where `construct` is the outcome of
`ModelInference()` (`Except.error` = the constructor raised).  It returns
the call's outcome, the new cache, and how many constructions it ran. -/

def getModelOnce {M E : Type} (construct : Except E M) (cache : Option M) :
    Except E M × Option M × Nat :=
  match cache with
  | some m => (Except.ok m, some m, 0)
  | none =>
    match construct with
    | Except.ok m => (Except.ok m, some m, 1)
    | Except.error e => (Except.error e, none, 1)

/-- A sequence of `get_model` calls, threading the cache; the `i`-th element
of `cs` is what `ModelInference()` would produce if the `i`-th call
constructs. -/
def runGetModel {M E : Type} :
    List (Except E M) → Option M → List (Except E M × Nat) × Option M
  | [], cache => ([], cache)
  | c :: cs, cache =>
    let r := getModelOnce c cache
    let rest := runGetModel cs r.2.1
    ((r.1, r.2.2) :: rest.1, rest.2)

/-! ## Interleaving model for concurrent `get_model` calls (claim C9)

Two threads each run the unguarded check-then-set of `get_model`:
read the cache; if empty, construct a handle and write it.  A schedule is a
list of booleans naming which thread performs its next atomic step.  Handles
are numbered so distinct constructions are observable. -/

/-- Program counter of one thread running `get_model`. -/
inductive ThreadPC where
  | start : ThreadPC
  | build : ThreadPC
  | done : Nat → ThreadPC
deriving DecidableEq, Repr

/-- Shared state: the `_model_instance` cache, both threads, and the number
of `ModelInference()` constructions (model loads) performed. -/
structure Sys where
  cache : Option Nat
  t0 : ThreadPC
  t1 : ThreadPC
  loads : Nat
deriving DecidableEq, Repr

/-- One atomic step of a thread whose construction would produce handle `c`:
`start` reads the cache (returning the cached handle, or moving to `build`);
`build` constructs and writes. -/
def stepThread (c : Nat) (cache : Option Nat) :
    ThreadPC → ThreadPC × Option Nat × Nat
  | .start =>
    match cache with
    | some m => (.done m, cache, 0)
    | none => (.build, cache, 0)
  | .build => (.done c, some c, 1)
  | .done h => (.done h, cache, 0)

/-- Step the system: `false` steps thread 0, `true` steps thread 1. -/
def stepSys (c0 c1 : Nat) (s : Sys) (who : Bool) : Sys :=
  if who then
    let r := stepThread c1 s.cache s.t1
    { s with t1 := r.1, cache := r.2.1, loads := s.loads + r.2.2 }
  else
    let r := stepThread c0 s.cache s.t0
    { s with t0 := r.1, cache := r.2.1, loads := s.loads + r.2.2 }

/-- Run a schedule from a state. -/
def runSched (c0 c1 : Nat) (sched : List Bool) (s : Sys) : Sys :=
  sched.foldl (stepSys c0 c1) s

/-- Both threads about to call `get_model`, model unloaded. -/
def initSys : Sys := ⟨none, .start, .start, 0⟩

/-! ## Helper lemmas -/

/-- Inserting an item whose confidence is `c` with `orderedInsert confGE`
puts it in front of every other item of confidence `c`: every item skipped
over has strictly larger confidence. -/
theorem filter_orderedInsert_pos (c : ℚ) (a : PredictionItem)
    (ha : a.confidence = c) (l : List PredictionItem) :
    (List.orderedInsert confGE a l).filter (fun x => decide (x.confidence = c)) =
      a :: l.filter (fun x => decide (x.confidence = c)) := by
  induction l with
  | nil => simp [List.orderedInsert, ha]
  | cons b l ih =>
    by_cases h : confGE a b
    · simp [List.orderedInsert, h, List.filter_cons, ha]
    · have hb : ¬ (b.confidence = c) := by
        intro hb
        exact h (le_of_eq (by rw [hb, ha]))
      simp [List.orderedInsert, h, List.filter_cons, hb, ih]

/-- `orderedInsert` does not disturb the relative order of the items it
inserts among: filtering away the inserted item recovers the old filter. -/
theorem filter_orderedInsert_neg (p : PredictionItem → Bool) (a : PredictionItem)
    (ha : p a = false) (l : List PredictionItem) :
    (List.orderedInsert confGE a l).filter p = l.filter p := by
  induction l with
  | nil => simp [List.orderedInsert, ha]
  | cons b l ih =>
    by_cases h : confGE a b
    · simp [List.orderedInsert, h, List.filter_cons, ha]
    · simp [List.orderedInsert, h, List.filter_cons, ih]

/-- Stability of the descending sort: items of any fixed confidence `c`
appear in the sorted list exactly in their original order. -/
theorem filter_insertionSort (c : ℚ) (l : List PredictionItem) :
    (List.insertionSort confGE l).filter (fun x => decide (x.confidence = c)) =
      l.filter (fun x => decide (x.confidence = c)) := by
  induction l with
  | nil => rfl
  | cons x l ih =>
    by_cases hx : x.confidence = c
    · rw [List.insertionSort, filter_orderedInsert_pos c x hx, ih, List.filter_cons]
      simp [hx]
    · rw [List.insertionSort, filter_orderedInsert_neg _ x (by simp [hx]), ih,
        List.filter_cons]
      simp [hx]

/-- `predict` always returns a non-empty `all_predictions` whose head the
primary diagnosis mirrors. -/
theorem predict_head (dets : List Detection) (names : Nat → String) (png : List Nat) :
    ∃ p t, (predict dets names png).all_predictions = p :: t ∧
      (predict dets names png).disease = p.class_name ∧
      (predict dets names png).confidence = p.confidence := by
  cases dets with
  | nil => exact ⟨sentinelItem, [], rfl, rfl, rfl⟩
  | cons d ds =>
    have hne : List.insertionSort confGE ((d :: ds).map (detToItem names)) ≠ [] := by
      intro hcon
      have hl := (List.perm_insertionSort confGE ((d :: ds).map (detToItem names))).length_eq
      rw [hcon] at hl
      simp at hl
    obtain ⟨a, t, hat⟩ := List.exists_cons_of_ne_nil hne
    have hpred : predict (d :: ds) names png =
        { disease := a.class_name, confidence := a.confidence,
          all_predictions := a :: t, annotated_image := dataURI png } := by
      simp only [predict, List.isEmpty_cons, Bool.false_eq_true, if_false, hat]
      simp [List.headI]
    exact ⟨a, t, by rw [hpred], by rw [hpred], by rw [hpred]⟩

/-- `translate_prediction_response` preserves the primary-mirrors-head
invariant: the head's `class_name` and the `disease` field are run through
the same (deterministic) per-string translation, and confidences are left
alone. -/
theorem translate_keeps_inv (tr : String → String → String → Option String)
    (target : String) (resp : Response) (p : PredictionItem) (rest : List PredValue)
    (hap : resp.all_predictions = some (PredValue.item p :: rest))
    (hd : resp.disease = some p.class_name)
    (hc : resp.confidence = p.confidence) :
    respInvariant (translate_prediction_response tr resp target).1 := by
  by_cases hen : target = "en"
  · subst hen
    refine ⟨PredValue.item p, rest, ?_, ?_, ?_⟩ <;>
      simp [translate_prediction_response, hap, hd, hc, PredValue.className,
        PredValue.confValue]
  · refine ⟨PredValue.dict ⟨some (translate_text tr p.class_name target "en").1,
      some p.confidence⟩,
      rest.map (fun q => PredValue.dict (translateItem tr target q).1), ?_, ?_, ?_⟩
    · simp [translate_prediction_response, hen, hap, translate_disease_names,
        translateItem, toDict]
    · simp [translate_prediction_response, hen, hd, PredValue.className]
    · simp [translate_prediction_response, hen, hc, PredValue.confValue]

/-! ## Claims -/

/-- C1: every PredictionResult surfaced by the core — the one assembled by
`ModelInference.predict` and the one `translate_prediction_response` returns
for any target language — satisfies `disease == all_predictions[0].class_name`
and `confidence == all_predictions[0].confidence`. -/
theorem C1_primary_mirrors_head (dets : List Detection) (names : Nat → String)
    (png : List Nat) (tr : String → String → String → Option String)
    (target : String) :
    respInvariant (predictResponse dets names png) ∧
    respInvariant (translate_prediction_response tr (predictResponse dets names png)
      target).1 := by
  obtain ⟨p, t, h1, h2, h3⟩ := predict_head dets names png
  constructor
  · exact ⟨PredValue.item p, t.map PredValue.item,
      by simp [predictResponse, h1],
      by simp [predictResponse, h2, PredValue.className],
      by simp [predictResponse, h3, PredValue.confValue]⟩
  · exact translate_keeps_inv tr target _ p (t.map PredValue.item)
      (by simp [predictResponse, h1])
      (by simp [predictResponse, h2])
      (by simp [predictResponse, h3])

/-- C2: for a non-empty detection list, `all_predictions` is sorted by
confidence descending, is a permutation of the built items, is stable
(items of each fixed confidence keep their original relative order), and
the primary diagnosis is the first element after sorting. -/
theorem C2_reduce_sorted_stable (dets : List Detection) (names : Nat → String)
    (png : List Nat) (h : dets ≠ []) :
    List.Sorted confGE (predict dets names png).all_predictions ∧
    List.Perm (predict dets names png).all_predictions (dets.map (detToItem names)) ∧
    (∀ c : ℚ,
      ((predict dets names png).all_predictions.filter
        (fun x => decide (x.confidence = c))) =
      ((dets.map (detToItem names)).filter (fun x => decide (x.confidence = c)))) ∧
    (predict dets names png).disease =
      (predict dets names png).all_predictions.headI.class_name ∧
    (predict dets names png).confidence =
      (predict dets names png).all_predictions.headI.confidence := by
  have hbe : dets.isEmpty = false := by
    cases dets with
    | nil => exact absurd rfl h
    | cons d ds => rfl
  refine ⟨?_, ?_, ?_, ?_, ?_⟩ <;> simp [predict, hbe]
  · exact List.sorted_insertionSort confGE _
  · exact List.perm_insertionSort confGE _
  · exact fun c => filter_insertionSort c _

/-- Concrete check for C2: the spec's scenario
`[{Leaf Blight, 0.91}, {Healthy, 0.40}]`. -/
def w2dets : List Detection :=
  [⟨(0, 0, 1, 1), 0, mkRat 91 100⟩, ⟨(0, 0, 1, 1), 1, mkRat 40 100⟩]

def w2names : Nat → String := fun i => if i = 0 then "Leaf Blight" else "Healthy"

theorem C2_reduce_sorted_witness :
    w2dets ≠ [] ∧
    (List.Sorted confGE (predict w2dets w2names []).all_predictions ∧
     List.Perm (predict w2dets w2names []).all_predictions
       (w2dets.map (detToItem w2names)) ∧
     (∀ c : ℚ,
       ((predict w2dets w2names []).all_predictions.filter
         (fun x => decide (x.confidence = c))) =
       ((w2dets.map (detToItem w2names)).filter
         (fun x => decide (x.confidence = c)))) ∧
     (predict w2dets w2names []).disease =
       (predict w2dets w2names []).all_predictions.headI.class_name ∧
     (predict w2dets w2names []).confidence =
       (predict w2dets w2names []).all_predictions.headI.confidence) ∧
    (predict w2dets w2names []).disease = "Leaf Blight" ∧
    (predict w2dets w2names []).confidence = mkRat 91 100 ∧
    (predict w2dets w2names []).all_predictions =
      [⟨"Leaf Blight", mkRat 91 100⟩, ⟨"Healthy", mkRat 40 100⟩] :=
  ⟨by simp [w2dets], C2_reduce_sorted_stable w2dets w2names [] (by simp [w2dets]),
   by decide, by decide, by decide⟩

/-- C3: for an empty detection sequence the pipeline returns (never raises —
the embedding is a total function) the sentinel result: exactly one item
`{class_name := "No Disease Detected", confidence := 0}`, mirrored by
`disease` and `confidence`. -/
theorem C3_empty_returns_sentinel (names : Nat → String) (png : List Nat) :
    predict [] names png =
      { disease := "No Disease Detected", confidence := 0,
        all_predictions := [⟨"No Disease Detected", 0⟩],
        annotated_image := dataURI png } := rfl

/-- C4: translating a response to `"en"` returns the input itself with zero
oracle calls, and `translate_text` is the identity with zero oracle calls
whenever the target is `"en"` or equals the source language. -/
theorem C4_en_identity_no_calls (tr : String → String → String → Option String)
    (resp : Response) (text target source : String) :
    translate_prediction_response tr resp "en" = (resp, 0) ∧
    (target = "en" ∨ target = source →
      translate_text tr text target source = (text, 0)) := by
  constructor
  · simp [translate_prediction_response]
  · intro h
    unfold translate_text
    rw [if_pos h]

/-- Concrete check for C4: identity on a sample response and on a
same-language single-text call, with no oracle calls, under an oracle that
would have changed every string. -/
def w4tr : String → String → String → Option String := fun s _ _ => some (s ++ "!")

def w4resp : Response :=
  ⟨some "Leaf Blight", mkRat 91 100,
   some [PredValue.item ⟨"Leaf Blight", mkRat 91 100⟩], "img"⟩

theorem C4_en_identity_witness :
    translate_prediction_response w4tr w4resp "en" = (w4resp, 0) ∧
    translate_text w4tr "hello" "fr" "fr" = ("hello", 0) :=
  ⟨(C4_en_identity_no_calls w4tr w4resp "hello" "fr" "fr").1,
   (C4_en_identity_no_calls w4tr w4resp "hello" "fr" "fr").2 (Or.inr rfl)⟩

/-- `translate_text` towards a non-default target (source being the default
`"en"`): exactly one oracle call, translation on success, original text
retained on failure. -/
theorem translate_text_ne_en (tr : String → String → String → Option String)
    (s target : String) (h : target ≠ "en") :
    translate_text tr s target "en" = (tfb tr target s, 1) := by
  unfold translate_text tfb
  rw [if_neg (by simp [h])]
  cases tr s "en" target <;> rfl

/-- `translateItem` spelled out for a non-default target. -/
theorem translateItem_eq (tr : String → String → String → Option String)
    (target : String) (p : PredValue) (h : target ≠ "en") :
    translateItem tr target p =
      ({ toDict p with
          class_name := some (tfb tr target ((toDict p).class_name.getD "")) }, 1) := by
  simp [translateItem, translate_text_ne_en tr _ target h]

/-- C5: per-string failure policy.  For any non-default target,
`translate_prediction_response` still returns a response (the embedding is
total — no exception escapes): the `disease` field and every `class_name`
become `tfb tr target ·`, which is the oracle's translation when it
succeeds and the original string when it raises. -/
theorem C5_per_string_fallback (tr : String → String → String → Option String)
    (resp : Response) (target : String) (h : target ≠ "en") :
    (∀ s, tr s "en" target = none → tfb tr target s = s) ∧
    (∀ s t, tr s "en" target = some t → tfb tr target s = t) ∧
    (∀ d, resp.disease = some d →
      ((translate_prediction_response tr resp target).1).disease =
        some (tfb tr target d)) ∧
    (∀ ps, resp.all_predictions = some ps →
      ((translate_prediction_response tr resp target).1).all_predictions =
        some (ps.map (fun p => PredValue.dict
          { toDict p with
            class_name := some (tfb tr target ((toDict p).class_name.getD "")) }))) := by
  refine ⟨?_, ?_, ?_, ?_⟩
  · intro s hs
    unfold tfb
    rw [hs]
  · intro s t hs
    unfold tfb
    rw [hs]
  · intro d hd
    simp [translate_prediction_response, h, hd, translate_text_ne_en tr d target h]
  · intro ps hps
    simp [translate_prediction_response, h, hps, translate_disease_names,
      translateItem_eq tr target _ h]

/-- Concrete check for C5 (the spec's scenario): the oracle raises for
"Leaf Blight" and succeeds for everything else; the response is still
returned, `disease` keeps its original text, and the other class name is
translated. -/
def w5tr : String → String → String → Option String :=
  fun s _ _ => if s = "Leaf Blight" then none else some (s ++ "*")

def w5resp : Response :=
  ⟨some "Leaf Blight", mkRat 91 100,
   some [PredValue.item ⟨"Leaf Blight", mkRat 91 100⟩,
         PredValue.item ⟨"Healthy", mkRat 40 100⟩], "img"⟩

theorem C5_per_string_witness :
    ((translate_prediction_response w5tr w5resp "es").1).disease =
      some "Leaf Blight" ∧
    ((translate_prediction_response w5tr w5resp "es").1).all_predictions =
      some [PredValue.dict ⟨some "Leaf Blight", some (mkRat 91 100)⟩,
            PredValue.dict ⟨some "Healthy*", some (mkRat 40 100)⟩] := by
  have h := C5_per_string_fallback w5tr w5resp "es" (by decide)
  constructor
  · rw [h.2.2.1 "Leaf Blight" rfl]
    rfl
  · rw [h.2.2.2 _ rfl]
    rfl

/-- C6 (amended): the annotated image is serialized to PNG (a lossless
raster format), but the pipeline itself then base64-encodes the bytes and
embeds them in a `data:image/png;base64,` data URI — the orchestrator
receives the complete data-URI string, not opaque encoded bytes. -/
theorem C6_data_uri_in_pipeline (dets : List Detection) (names : Nat → String)
    (png : List Nat) :
    (predict dets names png).annotated_image =
      "data:image/png;base64," ++ base64Encode png := by
  by_cases hbe : dets.isEmpty <;> simp [predict, hbe, dataURI]

/-- A sample PNG serialization (the PNG signature's first four bytes). -/
def c6png : List Nat := [137, 80, 78, 71]

/-- C6 counterexample: on a concrete input the `annotated_image` field is
not the encoded bytes — the pipeline has already performed the data-URI
embedding the claim reserves for the orchestrator. -/
theorem C6_counterexample :
    (predict [] (fun _ => "") c6png).annotated_image ≠ base64Encode c6png ∧
    (predict [] (fun _ => "") c6png).annotated_image =
      "data:image/png;base64," ++ base64Encode c6png := by
  constructor <;> decide

/-- If no candidate font path exists on the host, the probing loop finds
nothing. -/
theorem findFont_none (ex : String → Bool) (tt : String → Option FontRes)
    (hex : ∀ q, ex q = false) : ∀ ps, findFont ex tt ps = none := by
  intro ps
  induction ps with
  | nil => rfl
  | cons p ps ih => simp [findFont, hex p, ih]

/-- C7: the label layout is a total function of its inputs (no font failure
can raise).  Every label's y-origin is exactly
`max 0 (y1 - text_height - 5)` and hence never negative; when no font
resource can be resolved (no path exists and the built-in default fails),
the layout falls back to a width of `6 * charCount` and a fixed height of
`12` for every label. -/
theorem C7_label_layout_safe (ex : String → Bool) (tt : String → Option FontRes)
    (ld : Option FontRes) (names : Nat → String) (dets : List Detection) :
    (∀ p ∈ labelPlacements (resolveFont ex tt ld) names dets, 0 ≤ p.2.2) ∧
    (∀ d ∈ dets, (placeLabel (resolveFont ex tt ld) names d).2.2 =
      max 0 (d.box.2.1 - (placeLabel (resolveFont ex tt ld) names d).2.1 - 5)) ∧
    ((∀ q, ex q = false) → ld = none → resolveFont ex tt ld = none) ∧
    (resolveFont ex tt ld = none →
      labelPlacements (resolveFont ex tt ld) names dets =
        dets.map (fun d =>
          (((labelFor names d).length : ℚ) * 6, 12,
            max 0 (d.box.2.1 - 12 - 5)))) := by
  refine ⟨?_, ?_, ?_, ?_⟩
  · intro p hp
    obtain ⟨d, _, rfl⟩ := List.mem_map.1 hp
    simp only [placeLabel, labelY]
    exact le_max_left 0 _
  · intro d _
    simp only [placeLabel, labelY]
  · intro hex hld
    unfold resolveFont
    rw [findFont_none ex tt hex]
    exact hld
  · intro hres
    rw [hres]
    simp [labelPlacements, placeLabel, textDims, labelY]

/-- Concrete check for C7: a host with no font paths and a failing default
font still gets a layout, with the fallback estimate and a clamped
y-origin. -/
def w7ex : String → Bool := fun _ => false

def w7tt : String → Option FontRes := fun _ => none

def w7names : Nat → String := fun _ => "X"

def w7dets : List Detection := [⟨(0, 3, 10, 10), 0, mkRat 1 2⟩]

theorem C7_label_layout_witness :
    resolveFont w7ex w7tt none = none ∧
    labelPlacements (resolveFont w7ex w7tt none) w7names w7dets =
      w7dets.map (fun d =>
        (((labelFor w7names d).length : ℚ) * 6, 12,
          max 0 (d.box.2.1 - 12 - 5))) ∧
    (∀ p ∈ labelPlacements (resolveFont w7ex w7tt none) w7names w7dets,
      0 ≤ p.2.2) :=
  ⟨(C7_label_layout_safe w7ex w7tt none w7names w7dets).2.2.1 (fun _ => rfl) rfl,
   (C7_label_layout_safe w7ex w7tt none w7names w7dets).2.2.2
     ((C7_label_layout_safe w7ex w7tt none w7names w7dets).2.2.1 (fun _ => rfl) rfl),
   (C7_label_layout_safe w7ex w7tt none w7names w7dets).1⟩

/-- C8: in sequential execution, once `get_model` has returned an instance
`m` the cache holds `m` and every later call returns that same instance
with zero constructions; a failed construction returns the error and leaves
the cache unset (not poisoned), so any later call with an empty cache
attempts construction again (exactly one construction per such call). -/
theorem C8_singleton_lazy_init {M E : Type} (m : M) (e : E) (c : Except E M)
    (cs : List (Except E M)) :
    runGetModel cs (some m) = (cs.map (fun _ => (Except.ok m, 0)), some m) ∧
    getModelOnce (Except.error e) (none : Option M) = (Except.error e, none, 1) ∧
    getModelOnce c (none : Option M) = (c, c.toOption, 1) := by
  refine ⟨?_, rfl, ?_⟩
  · induction cs with
    | nil => rfl
    | cons c' cs ih => simp [runGetModel, getModelOnce, ih]
  · cases c <;> rfl

/-- C9 (amended): `get_model`'s lazy construction is an unguarded
check-then-set with no mutual-exclusion guard.  When the second call starts
only after the first completes, exactly one load is performed and both
callers receive the same handle; but when the two calls interleave between
the cache check and the assignment, two load operations are performed and
the callers receive their own, distinct handles. -/
theorem C9_unguarded_check_then_set (c0 c1 : Nat) :
    runSched c0 c1 [false, false, true] initSys =
      { cache := some c0, t0 := .done c0, t1 := .done c0, loads := 1 } ∧
    runSched c0 c1 [false, true, false, true] initSys =
      { cache := some c1, t0 := .done c0, t1 := .done c1, loads := 2 } :=
  ⟨rfl, rfl⟩

/-- C9 counterexample: a concrete interleaving of two concurrent first
calls (both read the empty cache before either writes) performs **two**
underlying load operations and hands the two callers **distinct** handles,
refuting the claim that exactly one load is performed and both callers
receive the same `ModelHandle` under a mutual-exclusion guard. -/
theorem C9_counterexample :
    (runSched 0 1 [false, true, false, true] initSys).loads = 2 ∧
    (runSched 0 1 [false, true, false, true] initSys).t0 = ThreadPC.done 0 ∧
    (runSched 0 1 [false, true, false, true] initSys).t1 = ThreadPC.done 1 ∧
    ThreadPC.done 0 ≠ ThreadPC.done 1 := by
  refine ⟨rfl, rfl, rfl, by decide⟩

/-- C10: for a non-default target, `translate_prediction_response` changes
only string fields (the embedding is pure, so the input value is never
mutated): `confidence` and `annotated_image` are unchanged, the length of
`all_predictions` is preserved, every returned item is a plain dict whose
non-`class_name` content is exactly the converted original item's, and an
item that is neither a dict nor a model is replaced by
`{class_name: str(item), confidence: 0.0}` (its `class_name` then being
translated like every other string field). -/
theorem C10_frame_only_strings (tr : String → String → String → Option String)
    (resp : Response) (target : String) (h : target ≠ "en") :
    ((translate_prediction_response tr resp target).1).confidence =
      resp.confidence ∧
    ((translate_prediction_response tr resp target).1).annotated_image =
      resp.annotated_image ∧
    (resp.all_predictions = none →
      ((translate_prediction_response tr resp target).1).all_predictions = none) ∧
    (∀ ps, resp.all_predictions = some ps → ∃ qs,
      ((translate_prediction_response tr resp target).1).all_predictions =
        some qs ∧
      qs.length = ps.length ∧
      (∀ (i : Nat) p, ps[i]? = some p → ∃ s, qs[i]? =
        some (PredValue.dict { toDict p with class_name := some s })) ∧
      (∀ (i : Nat) o, ps[i]? = some (PredValue.other o) →
        qs[i]? = some (PredValue.dict ⟨some (tfb tr target o), some 0⟩))) := by
  refine ⟨?_, ?_, ?_, ?_⟩
  · simp [translate_prediction_response, h]
  · simp [translate_prediction_response, h]
  · intro hn
    simp [translate_prediction_response, h, hn]
  · intro ps hps
    refine ⟨ps.map (fun p => PredValue.dict
      { toDict p with
        class_name := some (tfb tr target ((toDict p).class_name.getD "")) }),
      ?_, by simp, ?_, ?_⟩
    · simp [translate_prediction_response, h, hps, translate_disease_names,
        translateItem_eq tr target _ h]
    · intro i p hp
      exact ⟨tfb tr target ((toDict p).class_name.getD ""),
        by simp [List.getElem?_map, hp]⟩
    · intro i o ho
      simp [List.getElem?_map, ho, toDict]

/-- Concrete check for C10, exercising a Pydantic item and a non-dict,
non-model item. -/
def wXtr : String → String → String → Option String :=
  fun s _ _ => if s = "Leaf Blight" then none else some (s ++ "*")

def wXps : List PredValue :=
  [PredValue.item ⟨"Leaf Blight", mkRat 91 100⟩, PredValue.other "ghost"]

def wXresp : Response := ⟨some "Leaf Blight", mkRat 91 100, some wXps, "img64"⟩

theorem C10_frame_witness :
    ((translate_prediction_response wXtr wXresp "hi").1).confidence =
      wXresp.confidence ∧
    ((translate_prediction_response wXtr wXresp "hi").1).annotated_image =
      wXresp.annotated_image ∧
    (∃ qs, ((translate_prediction_response wXtr wXresp "hi").1).all_predictions =
        some qs ∧
      qs.length = wXps.length ∧
      (∀ (i : Nat) p, wXps[i]? = some p → ∃ s, qs[i]? =
        some (PredValue.dict { toDict p with class_name := some s })) ∧
      (∀ (i : Nat) o, wXps[i]? = some (PredValue.other o) →
        qs[i]? = some (PredValue.dict ⟨some (tfb wXtr "hi" o), some 0⟩))) := by
  have h := C10_frame_only_strings wXtr wXresp "hi" (by decide)
  exact ⟨h.1, h.2.1, h.2.2.2 wXps rfl⟩
